import Mathlib

/-
Verification of the image-workshop MCP router
(src/functions/image-workshop-mcp/src/index.ts and
src/packages/mcp-tools/src/registry.ts), shallowly embedded in Lean.

JSON values are modelled by an inductive `Json`; JavaScript numbers that
occur in this code base are all integers, so numbers are `Int`.
External collaborators (JSON.parse, fetch, the Lambda invocation channel,
the config resolver, process environment) are oracle fields of a `World`
record; outbound calls are recorded in an explicit effect log.
-/

/-- A JSON value. JS `undefined` is represented by absence (`Option`),
never by a `Json` constructor, matching `JSON.stringify` dropping
`undefined`-valued properties. Parsed objects are duplicate-key free
(as produced by `JSON.parse`), so field access takes the first match. -/
inductive Json where
  | null : Json
  | bool : Bool → Json
  | num : Int → Json
  | str : String → Json
  | arr : List Json → Json
  | obj : List (String × Json) → Json

/-- First-match field lookup on object fields. -/
def lookupField : List (String × Json) → String → Option Json
  | [], _ => none
  | (k, v) :: fs, key => if k = key then some v else lookupField fs key

/-- JS property access `j[k]`: `none` models `undefined` (missing field,
or access on a non-object primitive's wrapper). Access on `null`, which
throws a TypeError in JS, is handled at each use site. -/
def Json.getField : Json → String → Option Json
  | .obj fs, key => lookupField fs key
  | _, _ => none

/-- Is the value JSON `null`? (Property access on `null` throws a
TypeError in JS.) -/
def Json.isNull : Json → Bool
  | .null => true
  | _ => false

/-- JS truthiness of a value. -/
def Json.truthy : Json → Bool
  | .null => false
  | .bool b => b
  | .num n => n != 0
  | .str s => s != ""
  | .arr _ => true
  | .obj _ => true

/-- Truthiness of a possibly-undefined value (`undefined` is falsy). -/
def truthyO : Option Json → Bool
  | some v => v.truthy
  | none => false

/-- Left curly brace as text. -/
def lcur : String := "\x7b"

/-- Right curly brace as text. -/
def rcur : String := "\x7d"

/-- The text of an empty JSON object. -/
def emptyObjText : String := lcur ++ rcur

/-- Lower-case hex digit. -/
def hexDigit (n : Nat) : Char :=
  if n < 10 then Char.ofNat (48 + n) else Char.ofNat (87 + n)

/-- Four lower-case hex digits, as `JSON.stringify` emits for
control characters. -/
def hex4 (n : Nat) : String :=
  String.mk [hexDigit ((n / 4096) % 16), hexDigit ((n / 256) % 16),
             hexDigit ((n / 16) % 16), hexDigit (n % 16)]

/-- JSON string escaping of one character (as `JSON.stringify`). -/
def escChar (c : Char) : String :=
  if c = '"' then "\\\""
  else if c = '\\' then "\\\\"
  else if c = '\n' then "\\n"
  else if c = '\r' then "\\r"
  else if c = '\t' then "\\t"
  else if c = '\x08' then "\\b"
  else if c = '\x0c' then "\\f"
  else if c.toNat < 0x20 then "\\u" ++ hex4 c.toNat
  else String.singleton c

/-- JSON string literal for `s`, double-quoted and escaped. -/
def escapeString (s : String) : String :=
  "\"" ++ String.join (s.data.map escChar) ++ "\""

mutual
/-- `JSON.stringify(v)` (compact form, no space argument). -/
def stringify : Json → String
  | .null => "null"
  | .bool b => cond b "true" "false"
  | .num n => toString n
  | .str s => escapeString s
  | .arr xs => "[" ++ String.intercalate "," (stringifyArr xs) ++ "]"
  | .obj fs => lcur ++ String.intercalate "," (stringifyObjFields fs) ++ rcur

/-- Serialized array elements. -/
def stringifyArr : List Json → List String
  | [] => []
  | x :: xs => stringify x :: stringifyArr xs

/-- Serialized object members. -/
def stringifyObjFields : List (String × Json) → List String
  | [] => []
  | (k, v) :: fs => (escapeString k ++ ":" ++ stringify v) :: stringifyObjFields fs
end

mutual
/-- `JSON.stringify(v, null, 2)`: two-space-indented form. `ind` is the
accumulated indentation of the enclosing value. -/
def stringifyP (ind : String) : Json → String
  | .null => "null"
  | .bool b => cond b "true" "false"
  | .num n => toString n
  | .str s => escapeString s
  | .arr [] => "[]"
  | .arr (x :: xs) =>
      "[\n" ++ String.intercalate ",\n" (stringifyPArr (ind ++ "  ") (x :: xs))
        ++ "\n" ++ ind ++ "]"
  | .obj [] => emptyObjText
  | .obj (f :: fs) =>
      lcur ++ "\n" ++ String.intercalate ",\n" (stringifyPObj (ind ++ "  ") (f :: fs))
        ++ "\n" ++ ind ++ rcur

/-- Indented array elements, each on its own line. -/
def stringifyPArr (ind : String) : List Json → List String
  | [] => []
  | x :: xs => (ind ++ stringifyP ind x) :: stringifyPArr ind xs

/-- Indented object members, each on its own line. -/
def stringifyPObj (ind : String) : List (String × Json) → List String
  | [] => []
  | (k, v) :: fs =>
      (ind ++ escapeString k ++ ": " ++ stringifyP ind v) :: stringifyPObj ind fs
end

mutual
/-- JS `String(v)` coercion: `null`/booleans/numbers print their literal,
arrays join their elements with commas (null elements become empty),
plain objects print the generic object tag. -/
def jsToString : Json → String
  | .null => "null"
  | .bool b => cond b "true" "false"
  | .num n => toString n
  | .str s => s
  | .arr xs => String.intercalate "," (jsToStringArr xs)
  | .obj _ => "[object Object]"

/-- Array elements under JS `Array.prototype.toString` (join). -/
def jsToStringArr : List Json → List String
  | [] => []
  | .null :: xs => "" :: jsToStringArr xs
  | x :: xs => jsToString x :: jsToStringArr xs
end

/- ===================================================================
   Transport, error, and oracle types
   =================================================================== -/

/-- An MCP protocol error (`McpError` in the source): a numeric JSON-RPC
code, a message, and optional attached data (never set by this router). -/
structure McpErr where
  code : Int
  message : String
  data : Option Json

/-- Failure of a backend invocation as seen by `handleToolsCall`'s
`catch`: either an already-shaped `McpError`, or a plain JS exception
(e.g. a `SyntaxError` from `JSON.parse` or a `TypeError`), carrying its
message. -/
inductive ToolErr where
  | mcp (code : Int) (message : String)
  | js (message : String)

/-- One observable outbound interaction of the router. -/
inductive Effect where
  | configLookup (key parameterId defaultValue : String)
  | lambdaInvoke (functionName payload : String)
  | httpCall (url body : String)
deriving DecidableEq

/-- Is the effect an outbound backend call (as opposed to a
configuration lookup)? -/
def Effect.isOutbound : Effect → Bool
  | .configLookup .. => false
  | .lambdaInvoke .. => true
  | .httpCall .. => true

/-- Is the effect a direct HTTP backend call? -/
def Effect.isHttp : Effect → Bool
  | .httpCall .. => true
  | _ => false

/-- Is the effect an out-of-process (Lambda) backend invocation? -/
def Effect.isLambdaInvoke : Effect → Bool
  | .lambdaInvoke .. => true
  | _ => false

/-- Outcome of `fetch` + `response.json()`: HTTP success flag, numeric
status, and the decoded JSON body (or the decode rejection's message). -/
structure FetchResp where
  ok : Bool
  status : Int
  json : Except String Json

/-- Outcome of the Lambda `InvokeCommand`: optional `FunctionError`
marker and the optional response payload, already text-decoded. -/
structure LambdaResp where
  functionError : Option String
  payload : Option String

/-- The router's environment: `JSON.parse` and the external
collaborators, as response oracles keyed by the request actually sent.
`parse s` is `JSON.parse(s)` (`Except.error` = thrown `SyntaxError`
with its message); `localApiBaseUrl`/`awsRegion` are the
`LOCAL_API_BASE_URL`/`AWS_REGION` process environment entries;
`getValue key parameterId defaultValue` is the config resolver. -/
structure World where
  parse : String → Except String Json
  localApiBaseUrl : Option String
  awsRegion : Option String
  getValue : String → String → String → String
  fetchResp : String → String → FetchResp
  lambdaResp : String → String → LambdaResp

/-- The inbound transport event (the fields of `APIGatewayProxyEvent`
this handler reads). -/
structure HttpEvent where
  httpMethod : String
  body : Option String

/-- An outbound transport body: empty string (preflight) or a JSON
document; the source serializes the latter with `JSON.stringify` at
each return site, which `rawBody` below performs at the boundary. -/
inductive HBody where
  | empty : HBody
  | json : Json → HBody

/-- The transport result (`APIGatewayProxyResult`). -/
structure HttpOut where
  statusCode : Nat
  headers : List (String × String)
  body : HBody

/-- The serialized body text of a transport result. -/
def HttpOut.rawBody : HttpOut → String
  | o => match o.body with
    | .empty => ""
    | .json j => stringify j

/-- The body of a transport result as a JSON document, when it is one. -/
def HttpOut.bodyJson : HttpOut → Option Json
  | o => match o.body with
    | .empty => none
    | .json j => some j

/-- A JSON-RPC response envelope before serialization: echoed `id`
(`none` models `undefined`, dropped by `JSON.stringify`), and result or
error. -/
structure JsonRpcResponse where
  id : Option Json
  result : Option Json
  error : Option McpErr

/- ===================================================================
   Tool catalogue (src/packages/mcp-tools)
   =================================================================== -/

/-- An MCP tool definition (`McpToolDefinition`). -/
structure McpToolDefinition where
  name : String
  description : String
  inputSchema : Json

/-- A registered tool with its deployment configuration
(`McpToolConfig`). -/
structure McpToolConfig extends McpToolDefinition where
  lambdaFunction : String
  apiPath : String

/-- The txt2img tool definition
(src/packages/mcp-tools/src/tools/txt2img-stable-diffusion.ts). -/
def txt2imgStableDiffusion : McpToolDefinition where
  name := "txt2img_stable_diffusion"
  description := "Generate an image from a text prompt using Stable Diffusion (Stability AI)"
  inputSchema := Json.obj
    [("type", Json.str "object"),
     ("properties", Json.obj
       [("prompt", Json.obj
          [("type", Json.str "string"),
           ("description", Json.str "The text prompt describing what to generate. Be descriptive for best results.")]),
        ("negative_prompt", Json.obj
          [("type", Json.str "string"),
           ("description", Json.str "What to avoid in the generated image (e.g., \"blurry, low quality, distorted\")")]),
        ("width", Json.obj
          [("type", Json.str "number"),
           ("description", Json.str "Image width in pixels (default: 1024). Must be a multiple of 64."),
           ("default", Json.num 1024)]),
        ("height", Json.obj
          [("type", Json.str "number"),
           ("description", Json.str "Image height in pixels (default: 1024). Must be a multiple of 64."),
           ("default", Json.num 1024)]),
        ("steps", Json.obj
          [("type", Json.str "number"),
           ("description", Json.str "Number of diffusion steps (default: 30). Higher = better quality but slower."),
           ("default", Json.num 30),
           ("minimum", Json.num 10),
           ("maximum", Json.num 50)]),
        ("cfg_scale", Json.obj
          [("type", Json.str "number"),
           ("description", Json.str "How closely to follow the prompt (default: 7.0). Higher = stricter adherence."),
           ("default", Json.num 7),
           ("minimum", Json.num 1),
           ("maximum", Json.num 35)]),
        ("seed", Json.obj
          [("type", Json.str "number"),
           ("description", Json.str "Random seed for reproducibility. If not provided, a random seed will be used.")]),
        ("style_preset", Json.obj
          [("type", Json.str "string"),
           ("description", Json.str "Style preset to guide generation"),
           ("enum", Json.arr
             [Json.str "3d-model", Json.str "analog-film", Json.str "anime",
              Json.str "cinematic", Json.str "comic-book", Json.str "digital-art",
              Json.str "enhance", Json.str "fantasy-art", Json.str "isometric",
              Json.str "line-art", Json.str "low-poly", Json.str "modeling-compound",
              Json.str "neon-punk", Json.str "origami", Json.str "photographic",
              Json.str "pixel-art", Json.str "tile-texture"])]),
        ("output_format", Json.obj
          [("type", Json.str "string"),
           ("description", Json.str "Output image format (default: \"png\")"),
           ("enum", Json.arr [Json.str "png", Json.str "jpeg", Json.str "webp"]),
           ("default", Json.str "png")])]),
     ("required", Json.arr [Json.str "prompt"])]

/-- The static tool registry
(src/packages/mcp-tools/src/registry.ts, `TOOL_REGISTRY`). -/
def TOOL_REGISTRY : List McpToolConfig :=
  [{ txt2imgStableDiffusion with
      lambdaFunction := "ToolTxt2imgStableDiffusionFunction",
      apiPath := "/tools/txt2img-stable-diffusion" }]

/- ===================================================================
   Router method handlers
   (src/functions/image-workshop-mcp/src/index.ts)
   =================================================================== -/

/-- Read `j[k]` expecting a string (used where the source has already
guarded that the field is a string). -/
def jsStringField (j : Json) (k : String) : String :=
  match j.getField k with
  | some (.str s) => s
  | _ => ""

/-- The engine's TypeError message for property access on `null`
(`Cannot read properties of null (reading 'f')`); the quoting around
the field name is engine-specific and elided. -/
def nullFieldMsg (f : String) : String :=
  "Cannot read properties of null (reading " ++ f ++ ")"

/-- `handleInitialize()`: protocol version, `SERVER_CAPABILITIES`
(`tools: {}` only) and `SERVER_INFO`. -/
def initializeResult : Json :=
  Json.obj
    [("protocolVersion", Json.str "2025-06-18"),
     ("capabilities", Json.obj [("tools", Json.obj [])]),
     ("serverInfo", Json.obj
       [("name", Json.str "image-workshop-mcp"),
        ("version", Json.str "1.0.0")])]

/-- One `tools/list` entry: name, description, inputSchema. -/
def toolDefJson (t : McpToolConfig) : Json :=
  Json.obj
    [("name", Json.str t.name),
     ("description", Json.str t.description),
     ("inputSchema", t.inputSchema)]

/-- `handleToolsList()`: the registry mapped to definitions. -/
def toolsListResult : Json :=
  Json.obj [("tools", Json.arr (TOOL_REGISTRY.map toolDefJson))]

/-- The synthetic API-Gateway-style event sent to a tool Lambda
(`toolEvent` in `invokeToolViaLambda`). -/
def toolEventJson (args : Json) : Json :=
  Json.obj
    [("httpMethod", Json.str "POST"),
     ("body", Json.str (stringify args)),
     ("headers", Json.obj [("Content-Type", Json.str "application/json")]),
     ("pathParameters", Json.null),
     ("queryStringParameters", Json.null),
     ("requestContext", Json.obj [])]

/-- `lambdaResponse.statusCode >= 400`. A missing or `null` field
compares false (JS `undefined >= 400` is false, `null` coerces to 0);
non-numeric values, which the documented invocation contract rules out,
are treated as not-≥-400. -/
def statusCodeGe400 (lambdaResponse : Json) : Bool :=
  match lambdaResponse.getField "statusCode" with
  | some (.num n) => decide (400 ≤ n)
  | _ => false

/-- `JSON.parse(v)` on a value that may not be a string: JS coerces the
argument with `String()` first. -/
def jsJsonParse (w : World) (v : Json) : Except String Json :=
  w.parse (jsToString v)

/-- `invokeToolViaHttp(tool, args, baseUrl)`: POST the arguments to
`baseUrl + tool.apiPath`; a non-ok response raises `McpError(-32603)`
with the decoded body's `error` field (when truthy) or `HTTP <status>`.
Returns the decoded payload and the effect log of the call. -/
def invokeToolViaHttp (w : World) (tool : McpToolConfig) (args : Json)
    (baseUrl : String) : Except ToolErr Json × List Effect :=
  let url := baseUrl ++ tool.apiPath
  let reqBody := stringify args
  let effs := [Effect.httpCall url reqBody]
  let resp := w.fetchResp url reqBody
  let res : Except ToolErr Json :=
    match resp.json with
    | .error m => .error (.js m)
    | .ok result =>
      if resp.ok then .ok result
      else
        match result with
        | Json.null => .error (.js (nullFieldMsg "error"))
        | _ =>
          let msg := match result.getField "error" with
            | some v => if v.truthy then jsToString v else "HTTP " ++ toString resp.status
            | none => "HTTP " ++ toString resp.status
          .error (.mcp (-32603) msg)
  (res, effs)

/-- The error message drawn from a decoded tool error body
(`toolResult.error || 'Tool execution failed'`): the `error` field when
truthy (coerced to text), the generic fallback otherwise. -/
def toolErrMsgOf (toolResult : Json) : String :=
  match toolResult.getField "error" with
  | some v => if v.truthy then jsToString v else "Tool execution failed"
  | none => "Tool execution failed"

/-- `invokeToolViaLambda(tool, args, region)`: resolve the function name
through the config resolver (`LAMBDA_<upper>` key, parameter id
`/image-workshop/lambda/<name>`, default the static name), invoke with
the synthetic event, then decode the API-Gateway-shaped response:
`FunctionError` ⇒ `-32603 Tool execution failed: <payload>`; missing
payload ⇒ `-32603 Empty response from tool Lambda`; decoded
`statusCode >= 400` ⇒ `-32603` with the decoded body's `error` field
(when truthy) or `Tool execution failed`. -/
def invokeToolViaLambda (w : World) (tool : McpToolConfig) (args : Json)
    (region : String) : Except ToolErr Json × List Effect :=
  let key := "LAMBDA_" ++ tool.lambdaFunction.toUpper
  let pid := "/image-workshop/lambda/" ++ tool.lambdaFunction
  let functionName := w.getValue key pid tool.lambdaFunction
  let payload := stringify (toolEventJson args)
  let effs := [Effect.configLookup key pid tool.lambdaFunction,
               Effect.lambdaInvoke functionName payload]
  let resp := w.lambdaResp functionName payload
  let res : Except ToolErr Json :=
    match resp.functionError with
    | some _ =>
      let errorPayload := match resp.payload with
        | some p => p
        | none => "Unknown error"
      .error (.mcp (-32603) ("Tool execution failed: " ++ errorPayload))
    | none =>
      match resp.payload with
      | none => .error (.mcp (-32603) "Empty response from tool Lambda")
      | some p =>
        match w.parse p with
        | .error m => .error (.js m)
        | .ok lambdaResponse =>
          if lambdaResponse.isNull then .error (.js (nullFieldMsg "body"))
          else
            let bodyParsed := match lambdaResponse.getField "body" with
              | some bv => if bv.truthy then jsJsonParse w bv else w.parse emptyObjText
              | none => w.parse emptyObjText
            match bodyParsed with
            | .error m => .error (.js m)
            | .ok toolResult =>
              if statusCodeGe400 lambdaResponse then
                if toolResult.isNull then .error (.js (nullFieldMsg "error"))
                else .error (.mcp (-32603) (toolErrMsgOf toolResult))
              else .ok toolResult
  (res, effs)

/-- The metadata object `{seed, finish_reason, model}` built from a tool
payload; fields absent from the payload are `undefined` and dropped by
`JSON.stringify`, so they are dropped at construction here. -/
def metaObj (result : Json) : Json :=
  Json.obj (["seed", "finish_reason", "model"].filterMap
    (fun k => (result.getField k).map (fun v => (k, v))))

/-- Result shaping at the end of `handleToolsCall`: a payload with
truthy `image` and `mime_type` becomes an image block plus a text block
with the pretty-printed metadata; anything else becomes one text block
with the pretty-printed payload. -/
def formatToolResult (toolResult : Json) : Json :=
  let img := toolResult.getField "image"
  let mt := toolResult.getField "mime_type"
  if truthyO img && truthyO mt then
    Json.obj [("content", Json.arr
      [Json.obj [("type", Json.str "image"),
                 ("data", img.getD Json.null),
                 ("mimeType", mt.getD Json.null)],
       Json.obj [("type", Json.str "text"),
                 ("text", Json.str (stringifyP "" (metaObj toolResult)))]])]
  else
    Json.obj [("content", Json.arr
      [Json.obj [("type", Json.str "text"),
                 ("text", Json.str (stringifyP "" toolResult))]])]

/-- Interpretation of a backend invocation outcome inside
`handleToolsCall`: success is shaped with `formatToolResult` (a `null`
payload makes the `result.image` access throw a TypeError first); the
`catch` passes `McpError` through and wraps any other exception as
`-32603 Internal error: <message>`. -/
def toolCallOutcome : Except ToolErr Json → Except McpErr Json
  | .ok Json.null => .error ⟨-32603, "Internal error: " ++ nullFieldMsg "image", none⟩
  | .ok toolResult => .ok (formatToolResult toolResult)
  | .error (.mcp c m) => .error ⟨c, m, none⟩
  | .error (.js m) => .error ⟨-32603, "Internal error: " ++ m, none⟩

/-- `handleToolsCall(params, region)`: registry lookup by exact name
(`-32602 Unknown tool: <name>` when absent), arguments defaulting
(`params.arguments || {}`), transport selection on the truthiness of
`LOCAL_API_BASE_URL`, result shaping, and the `catch` that passes
`McpError` through and wraps any other exception as
`-32603 Internal error: <message>`. A `null` payload makes the
`result.image` access throw a TypeError, wrapped the same way. -/
def handleToolsCall (w : World) (params : Json) (region : String) :
    Except McpErr Json × List Effect :=
  let name := jsStringField params "name"
  match TOOL_REGISTRY.find? (fun t => t.name == name) with
  | none => (.error ⟨-32602, "Unknown tool: " ++ name, none⟩, [])
  | some tool =>
    let args := match params.getField "arguments" with
      | some a => if a.truthy then a else Json.obj []
      | none => Json.obj []
    let invoked := match w.localApiBaseUrl with
      | some base =>
          if base = "" then invokeToolViaLambda w tool args region
          else invokeToolViaHttp w tool args base
      | none => invokeToolViaLambda w tool args region
    (toolCallOutcome invoked.1, invoked.2)

/-- The `tools/call` dispatch guard
(`!request.params?.name || typeof request.params.name !== 'string'`):
passes exactly when `params.name` is a truthy (non-empty) string. -/
def toolsCallNameOk (request : Json) : Bool :=
  match (request.getField "params").bind (fun p => p.getField "name") with
  | some (.str s) => s != ""
  | _ => false

/-- `request.params` as passed to `handleToolsCall` (defined whenever
the dispatch guard passed). -/
def paramsOf (request : Json) : Json :=
  (request.getField "params").getD Json.null

/-- A success envelope. -/
def okResp (idv : Option Json) (res : Json) : JsonRpcResponse :=
  ⟨idv, some res, none⟩

/-- An error envelope with the request id echoed. -/
def errResp (idv : Option Json) (c : Int) (m : String) : JsonRpcResponse :=
  ⟨idv, none, some ⟨c, m, none⟩⟩

/-- `handleMcpRequest(request, region)`: the method switch, plus the
catch that shapes any thrown `McpError` into an error envelope carrying
the request's `id`. -/
def handleMcpRequest (w : World) (request : Json) (region : String) :
    JsonRpcResponse × List Effect :=
  let idv := request.getField "id"
  let meth := jsStringField request "method"
  if meth = "initialize" then (okResp idv initializeResult, [])
  else if meth = "initialized" then (okResp idv (Json.obj []), [])
  else if meth = "notifications/initialized" then (okResp idv (Json.obj []), [])
  else if meth = "tools/list" then (okResp idv toolsListResult, [])
  else if meth = "tools/call" then
    if toolsCallNameOk request then
      match handleToolsCall w (paramsOf request) region with
      | (.ok res, effs) => (okResp idv res, effs)
      | (.error e, effs) => ((⟨idv, none, some e⟩ : JsonRpcResponse), effs)
    else (errResp idv (-32602) "Missing or invalid tool name", [])
  else if meth = "resources/list" then
    (okResp idv (Json.obj [("resources", Json.arr [])]), [])
  else if meth = "prompts/list" then
    (okResp idv (Json.obj [("prompts", Json.arr [])]), [])
  else if meth = "ping" then (okResp idv (Json.obj []), [])
  else (errResp idv (-32601) ("Method not found: " ++ meth), [])

/- ===================================================================
   Transport-level handler
   =================================================================== -/

/-- The CORS headers attached to every response. -/
def baseHeaders : List (String × String) :=
  [("Content-Type", "application/json"),
   ("Access-Control-Allow-Origin", "*"),
   ("Access-Control-Allow-Headers", "Content-Type")]

/-- The preflight response headers (base plus allow-methods). -/
def optionsHeaders : List (String × String) :=
  baseHeaders ++ [("Access-Control-Allow-Methods", "POST, OPTIONS")]

/-- A handler-level JSON-RPC error body literal:
`{jsonrpc:"2.0", id, error:{code, message}}`. -/
def rpcErrJson (idv : Json) (code : Int) (msg : String) : Json :=
  Json.obj
    [("jsonrpc", Json.str "2.0"),
     ("id", idv),
     ("error", Json.obj [("code", Json.num code), ("message", Json.str msg)])]

/-- Serialization of an `McpError` inside an envelope (`data` absent is
dropped). -/
def mcpErrJson (e : McpErr) : Json :=
  Json.obj ([("code", Json.num e.code), ("message", Json.str e.message)]
    ++ (match e.data with
        | some d => [("data", d)]
        | none => []))

/-- Serialization of a response envelope: `jsonrpc` tag first, then the
echoed `id` (dropped when the request had none), then exactly one of
`result`/`error`. -/
def rpcRespJson (r : JsonRpcResponse) : Json :=
  Json.obj ([("jsonrpc", Json.str "2.0")]
    ++ (match r.id with
        | some v => [("id", v)]
        | none => [])
    ++ (match r.result with
        | some v => [("result", v)]
        | none => [])
    ++ (match r.error with
        | some e => [("error", mcpErrJson e)]
        | none => []))

/-- The 405 response for a non-POST, non-OPTIONS verb. -/
def methodNotAllowedOut : HttpOut :=
  ⟨405, baseHeaders, .json (rpcErrJson Json.null (-32600) "Method not allowed. Use POST.")⟩

/-- A caught `McpError` at the handler level: status 200, id `null`. -/
def mcpErrorOut (code : Int) (msg : String) : HttpOut :=
  ⟨200, baseHeaders, .json (rpcErrJson Json.null code msg)⟩

/-- The caught-`SyntaxError` response: status 400, parse error code. -/
def parseErrorOut : HttpOut :=
  ⟨400, baseHeaders, .json (rpcErrJson Json.null (-32700) "Parse error: Invalid JSON")⟩

/-- The unknown-error response: status 500, internal error code. -/
def internalErrorOut : HttpOut :=
  ⟨500, baseHeaders, .json (rpcErrJson Json.null (-32603) "Internal server error")⟩

/-- Framing check `request.jsonrpc !== '2.0'` (negated). -/
def isJsonrpc20 (request : Json) : Bool :=
  match request.getField "jsonrpc" with
  | some (.str s) => s == "2.0"
  | _ => false

/-- Framing check `!request.method || typeof request.method !== 'string'`
(negated): the method is a truthy (non-empty) string. -/
def methodFieldOk (request : Json) : Bool :=
  match request.getField "method" with
  | some (.str s) => s != ""
  | _ => false

/-- The POST path of the handler: empty-body guard (a falsy `event.body`
throws `McpError(-32600)`, caught as a 200 protocol error with id null),
`JSON.parse` (a `SyntaxError` becomes the 400 parse-error response), the
TypeError on field access when the body parsed to `null` (caught by the
unknown-error 500 branch), the two framing validations, then dispatch. -/
def handlerPost (w : World) (e : HttpEvent) : HttpOut × List Effect :=
  match e.body with
  | none => (mcpErrorOut (-32600) "Empty request body", [])
  | some b =>
    if b = "" then (mcpErrorOut (-32600) "Empty request body", [])
    else
      match w.parse b with
      | .error _ => (parseErrorOut, [])
      | .ok request =>
        if request.isNull then (internalErrorOut, [])
        else if isJsonrpc20 request then
          if methodFieldOk request then
            let region := match w.awsRegion with
              | some r => if r = "" then "us-east-1" else r
              | none => "us-east-1"
            let (resp, effs) := handleMcpRequest w request region
            (⟨200, baseHeaders, .json (rpcRespJson resp)⟩, effs)
          else (mcpErrorOut (-32600) "Missing or invalid method", [])
        else (mcpErrorOut (-32600) "Invalid JSON-RPC version", [])

/-- The Lambda handler: OPTIONS preflight, the POST-only gate (405),
then the POST path. -/
def handler (w : World) (e : HttpEvent) : HttpOut × List Effect :=
  if e.httpMethod = "OPTIONS" then ((⟨200, optionsHeaders, .empty⟩ : HttpOut), [])
  else if e.httpMethod ≠ "POST" then (methodNotAllowedOut, [])
  else handlerPost w e

/- ===================================================================
   Observation helpers for the theorems
   =================================================================== -/

/-- The `error.code` field of a response body, when present / numeric. -/
def outErrCode (o : HttpOut) : Option Int :=
  match (o.bodyJson.bind (fun j => j.getField "error")).bind (fun e => e.getField "code") with
  | some (.num n) => some n
  | _ => none

/-- The `error.message` field of a response body. -/
def outErrMsg (o : HttpOut) : Option String :=
  match (o.bodyJson.bind (fun j => j.getField "error")).bind (fun e => e.getField "message") with
  | some (.str s) => some s
  | _ => none

/-- The `id` field of a response body (`none` = field absent). -/
def outId (o : HttpOut) : Option Json :=
  o.bodyJson.bind (fun j => j.getField "id")

/-- The `result` field of a response body (`none` = field absent). -/
def outResult (o : HttpOut) : Option Json :=
  o.bodyJson.bind (fun j => j.getField "result")

/-- The `jsonrpc` field of a response body (`none` = not version-tagged). -/
def outTag (o : HttpOut) : Option Json :=
  o.bodyJson.bind (fun j => j.getField "jsonrpc")

/-- The `content` list of a shaped tool result. -/
def contentOf (j : Json) : List Json :=
  match j.getField "content" with
  | some (.arr xs) => xs
  | _ => []

/-- Is `sub` a contiguous sublist of `l`? -/
def subListOf (sub : List Char) : List Char → Bool
  | [] => sub.isEmpty
  | c :: rest => sub.isPrefixOf (c :: rest) || subListOf sub rest

/-- Substring test used for "the message contains the name". -/
def strContains (s sub : String) : Bool :=
  subListOf sub.data s.data

/- ===================================================================
   Concrete environments for closed instantiations
   =================================================================== -/

/-- A world with `JSON.parse` given by a finite table, no local base
URL, and a config resolver that returns the fallback value. -/
def tableWorld (tbl : String → Except String Json) : World where
  parse := tbl
  localApiBaseUrl := none
  awsRegion := none
  getValue := fun _ _ d => d
  fetchResp := fun _ _ => ⟨true, 200, .ok (Json.obj [])⟩
  lambdaResp := fun _ _ => ⟨none, none⟩

/-- A world whose parser always fails, as on a malformed body. -/
def cwParse : World :=
  tableWorld (fun _ => .error "Unexpected token o in JSON at position 1")

/-- A world whose parser recognizes one body with a bad version tag and
one body that is the JSON text of `null`. -/
def cwFraming : World := tableWorld (fun s =>
  if s = "F1" then
    .ok (Json.obj [("jsonrpc", Json.str "1.0"), ("id", Json.num 7),
                   ("method", Json.str "initialize")])
  else if s = "null" then .ok Json.null
  else .error "Unexpected token")

/- ===================================================================
   Claim theorems
   =================================================================== -/

/-- C4: for every POST whose body is a non-empty string that `JSON.parse`
rejects, the handler responds at transport status 400 with a JSON-RPC
body whose `error.code` is `-32700` and whose `id` is `null`. -/
theorem handler_parse_failure_gives_400_parse_error
    (w : World) (e : HttpEvent) (b : String)
    (hm : e.httpMethod = "POST") (hb : e.body = some b) (hne : b ≠ "")
    (hp : ∃ m, w.parse b = .error m) :
    (handler w e).1.statusCode = 400 ∧
    outErrCode (handler w e).1 = some (-32700) ∧
    outId (handler w e).1 = some Json.null := by
  obtain ⟨m, hp⟩ := hp
  simp [handler, hm, handlerPost, hb, hne, hp, parseErrorOut, outErrCode, outId,
        HttpOut.bodyJson, rpcErrJson, Json.getField, lookupField]

/-- Closed instance of the C4 theorem at the body `not valid json`. -/
theorem handler_parse_failure_witness :
    (("not valid json" : String) ≠ "") ∧
    ((handler cwParse ⟨"POST", some "not valid json"⟩).1.statusCode = 400 ∧
     outErrCode (handler cwParse ⟨"POST", some "not valid json"⟩).1 = some (-32700) ∧
     outId (handler cwParse ⟨"POST", some "not valid json"⟩).1 = some Json.null) :=
  ⟨by decide,
   handler_parse_failure_gives_400_parse_error cwParse ⟨"POST", some "not valid json"⟩
     "not valid json" rfl rfl (by decide)
     ⟨"Unexpected token o in JSON at position 1", rfl⟩⟩

/-- C10: a POST with an absent or empty body is answered at transport
status 200 with `error.code = -32600`, message `Empty request body` and
`id = null` — the empty body is not treated as a parse error. -/
theorem handler_empty_body_invalid_request
    (w : World) (e : HttpEvent)
    (hm : e.httpMethod = "POST") (hb : e.body = none ∨ e.body = some "") :
    (handler w e).1.statusCode = 200 ∧
    outErrCode (handler w e).1 = some (-32600) ∧
    outErrMsg (handler w e).1 = some "Empty request body" ∧
    outId (handler w e).1 = some Json.null ∧
    outResult (handler w e).1 = none := by
  rcases hb with hb | hb <;>
    simp [handler, hm, handlerPost, hb, mcpErrorOut, outErrCode, outErrMsg, outId,
          outResult, HttpOut.bodyJson, rpcErrJson, Json.getField, lookupField]

/-- Closed instance of the C10 theorem at an absent body. -/
theorem handler_empty_body_witness :
    (handler cwParse ⟨"POST", none⟩).1.statusCode = 200 ∧
    outErrCode (handler cwParse ⟨"POST", none⟩).1 = some (-32600) ∧
    outErrMsg (handler cwParse ⟨"POST", none⟩).1 = some "Empty request body" ∧
    outId (handler cwParse ⟨"POST", none⟩).1 = some Json.null ∧
    outResult (handler cwParse ⟨"POST", none⟩).1 = none :=
  handler_empty_body_invalid_request cwParse ⟨"POST", none⟩ rfl (Or.inl rfl)

/-- C2 (amended): a verb other than OPTIONS and POST yields transport
status 405 with the message `Method not allowed. Use POST.`; the body
IS a JSON-RPC envelope version-tagged `jsonrpc: "2.0"` with
`error.code = -32600` and `id = null`. -/
theorem handler_non_post_method_not_allowed
    (w : World) (e : HttpEvent)
    (h1 : e.httpMethod ≠ "OPTIONS") (h2 : e.httpMethod ≠ "POST") :
    (handler w e).1.statusCode = 405 ∧
    outErrMsg (handler w e).1 = some "Method not allowed. Use POST." ∧
    outErrCode (handler w e).1 = some (-32600) ∧
    outTag (handler w e).1 = some (Json.str "2.0") ∧
    outId (handler w e).1 = some Json.null := by
  simp [handler, h1, h2, methodNotAllowedOut, outErrMsg, outErrCode, outTag, outId,
        HttpOut.bodyJson, rpcErrJson, Json.getField, lookupField]

/-- Closed instance of the C2 theorem at the verb GET. -/
theorem handler_non_post_witness :
    (("GET" : String) ≠ "OPTIONS") ∧ (("GET" : String) ≠ "POST") ∧
    ((handler cwParse ⟨"GET", none⟩).1.statusCode = 405 ∧
     outErrMsg (handler cwParse ⟨"GET", none⟩).1 = some "Method not allowed. Use POST." ∧
     outErrCode (handler cwParse ⟨"GET", none⟩).1 = some (-32600) ∧
     outTag (handler cwParse ⟨"GET", none⟩).1 = some (Json.str "2.0") ∧
     outId (handler cwParse ⟨"GET", none⟩).1 = some Json.null) :=
  ⟨by decide, by decide,
   handler_non_post_method_not_allowed cwParse ⟨"GET", none⟩ (by decide) (by decide)⟩

/-- C2 counterexample: the claim says the 405 body is a plain JSON error
that is NOT version-tagged; in fact for a GET the 405 body carries
`jsonrpc: "2.0"`. -/
theorem handler_non_post_version_tag_counterexample :
    (handler cwParse ⟨"GET", none⟩).1.statusCode = 405 ∧
    outTag (handler cwParse ⟨"GET", none⟩).1 = some (Json.str "2.0") ∧
    outTag (handler cwParse ⟨"GET", none⟩).1 ≠ none := by
  refine ⟨rfl, rfl, ?_⟩
  intro h
  rw [show outTag (handler cwParse ⟨"GET", none⟩).1 = some (Json.str "2.0") from rfl] at h
  exact Option.noConfusion h

/-- C1 (amended): a POST whose body parses to a non-null value with bad
framing (version tag not `"2.0"`, or method missing / not a non-empty
string) is answered at status 200 with `error.code = -32600`, no
`result`, and `id = null` — the parsed body's `id` is NOT echoed. -/
theorem handler_bad_framing_invalid_request_null_id
    (w : World) (e : HttpEvent) (b : String) (v : Json)
    (hm : e.httpMethod = "POST") (hb : e.body = some b) (hne : b ≠ "")
    (hp : w.parse b = .ok v) (hnn : v.isNull = false)
    (hbad : isJsonrpc20 v = false ∨ methodFieldOk v = false) :
    (handler w e).1.statusCode = 200 ∧
    outErrCode (handler w e).1 = some (-32600) ∧
    outResult (handler w e).1 = none ∧
    outId (handler w e).1 = some Json.null := by
  rcases hbad with h | h
  · simp [handler, hm, handlerPost, hb, hne, hp, hnn, h, mcpErrorOut, outErrCode,
          outResult, outId, HttpOut.bodyJson, rpcErrJson, Json.getField, lookupField]
  · by_cases h2 : isJsonrpc20 v <;>
      simp [handler, hm, handlerPost, hb, hne, hp, hnn, h, h2, mcpErrorOut, outErrCode,
            outResult, outId, HttpOut.bodyJson, rpcErrJson, Json.getField, lookupField]

/-- Closed instance of the C1 theorem at the bad-version body `F1`. -/
theorem handler_bad_framing_witness :
    (cwFraming.parse "F1" =
      .ok (Json.obj [("jsonrpc", Json.str "1.0"), ("id", Json.num 7),
                     ("method", Json.str "initialize")])) ∧
    ((handler cwFraming ⟨"POST", some "F1"⟩).1.statusCode = 200 ∧
     outErrCode (handler cwFraming ⟨"POST", some "F1"⟩).1 = some (-32600) ∧
     outResult (handler cwFraming ⟨"POST", some "F1"⟩).1 = none ∧
     outId (handler cwFraming ⟨"POST", some "F1"⟩).1 = some Json.null) :=
  ⟨rfl,
   handler_bad_framing_invalid_request_null_id cwFraming ⟨"POST", some "F1"⟩ "F1"
     (Json.obj [("jsonrpc", Json.str "1.0"), ("id", Json.num 7),
                ("method", Json.str "initialize")])
     rfl rfl (by decide) rfl rfl (Or.inl rfl)⟩

/-- C1 counterexample: (1) for a parsed body with `jsonrpc: "1.0"` and
`id: 7`, the response's `id` is `null`, not the parsed body's `7`;
(2) for the body `null` (which parses successfully), the response is a
500 with `error.code = -32603`, not `-32600`. -/
theorem handler_bad_framing_id_counterexample :
    (outErrCode (handler cwFraming ⟨"POST", some "F1"⟩).1 = some (-32600) ∧
     outId (handler cwFraming ⟨"POST", some "F1"⟩).1 = some Json.null ∧
     outId (handler cwFraming ⟨"POST", some "F1"⟩).1 ≠ some (Json.num 7)) ∧
    ((handler cwFraming ⟨"POST", some "null"⟩).1.statusCode = 500 ∧
     outErrCode (handler cwFraming ⟨"POST", some "null"⟩).1 = some (-32603) ∧
     outErrCode (handler cwFraming ⟨"POST", some "null"⟩).1 ≠ some (-32600)) := by
  refine ⟨⟨rfl, rfl, ?_⟩, rfl, rfl, ?_⟩
  · intro h
    rw [show outId (handler cwFraming ⟨"POST", some "F1"⟩).1 = some Json.null from rfl] at h
    injection h with h2
    exact Json.noConfusion h2
  · intro h
    rw [show outErrCode (handler cwFraming ⟨"POST", some "null"⟩).1 = some (-32603)
          from rfl] at h
    injection h with h2
    exact absurd h2 (by decide)

/-- The method names the dispatch table accepts. -/
def acceptedMethod (m : String) : Bool :=
  m == "initialize" || m == "initialized" || m == "notifications/initialized" ||
  m == "tools/list" || m == "tools/call" || m == "resources/list" ||
  m == "prompts/list" || m == "ping"

/-- C3: dispatch follows the method table. `initialize` yields
`protocolVersion`, `capabilities = {tools:{}}` and `serverInfo` with
name and version; `initialized`, `notifications/initialized` and `ping`
yield `{}`; `resources/list` yields `{resources: []}`; `prompts/list`
yields `{prompts: []}`; `tools/list` yields the registry listing;
every accepted method answers with `error` absent (for `tools/call`,
when the invocation succeeds); any other method yields
`error.code = -32601`, no `result`, and the request's `id` echoed. -/
theorem dispatch_follows_method_table :
    (∀ (w : World) (req : Json) (region : String),
       jsStringField req "method" = "initialize" →
       (handleMcpRequest w req region).1 = okResp (req.getField "id") initializeResult) ∧
    (initializeResult.getField "protocolVersion" = some (Json.str "2025-06-18") ∧
     initializeResult.getField "capabilities" = some (Json.obj [("tools", Json.obj [])]) ∧
     (initializeResult.getField "serverInfo").bind (fun s => s.getField "name") =
       some (Json.str "image-workshop-mcp") ∧
     (initializeResult.getField "serverInfo").bind (fun s => s.getField "version") =
       some (Json.str "1.0.0")) ∧
    (∀ (w : World) (req : Json) (region m : String),
       jsStringField req "method" = m →
       (m = "initialized" ∨ m = "notifications/initialized" ∨ m = "ping") →
       (handleMcpRequest w req region).1 = okResp (req.getField "id") (Json.obj [])) ∧
    (∀ (w : World) (req : Json) (region : String),
       jsStringField req "method" = "resources/list" →
       (handleMcpRequest w req region).1 =
         okResp (req.getField "id") (Json.obj [("resources", Json.arr [])])) ∧
    (∀ (w : World) (req : Json) (region : String),
       jsStringField req "method" = "prompts/list" →
       (handleMcpRequest w req region).1 =
         okResp (req.getField "id") (Json.obj [("prompts", Json.arr [])])) ∧
    (∀ (w : World) (req : Json) (region : String),
       jsStringField req "method" = "tools/list" →
       (handleMcpRequest w req region).1 = okResp (req.getField "id") toolsListResult) ∧
    (∀ (w : World) (req : Json) (region : String) (res : Json) (effs : List Effect),
       jsStringField req "method" = "tools/call" →
       toolsCallNameOk req = true →
       handleToolsCall w (paramsOf req) region = (.ok res, effs) →
       (handleMcpRequest w req region).1 = okResp (req.getField "id") res) ∧
    (∀ (w : World) (req : Json) (region m : String),
       jsStringField req "method" = m →
       acceptedMethod m = false →
       (handleMcpRequest w req region).1 =
         errResp (req.getField "id") (-32601) ("Method not found: " ++ m)) := by
  refine ⟨?_, ⟨rfl, rfl, rfl, rfl⟩, ?_, ?_, ?_, ?_, ?_, ?_⟩
  · intro w req region h
    simp [handleMcpRequest, h]
  · intro w req region m h hm
    rcases hm with hm | hm | hm <;> subst hm <;> simp [handleMcpRequest, h]
  · intro w req region h
    simp [handleMcpRequest, h]
  · intro w req region h
    simp [handleMcpRequest, h]
  · intro w req region h
    simp [handleMcpRequest, h]
  · intro w req region res effs h hok hcall
    simp [handleMcpRequest, h, hok, hcall]
  · intro w req region m h hacc
    simp only [acceptedMethod, Bool.or_eq_false_iff, beq_eq_false_iff_ne, ne_eq] at hacc
    obtain ⟨⟨⟨⟨⟨⟨⟨ha1, ha2⟩, ha3⟩, ha4⟩, ha5⟩, ha6⟩, ha7⟩, ha8⟩ := hacc
    simp [handleMcpRequest, h, ha1, ha2, ha3, ha4, ha5, ha6, ha7, ha8]

/-- A minimal well-framed request envelope. -/
def reqOf (idv : Json) (meth : String) : Json :=
  Json.obj [("jsonrpc", Json.str "2.0"), ("id", idv), ("method", Json.str meth)]

/-- A successful image-bearing backend payload. -/
def okPayload : Json :=
  Json.obj [("image", Json.str "aGVsbG8="), ("mime_type", Json.str "image/png"),
            ("seed", Json.num 42)]

/-- A world in local mode (`LOCAL_API_BASE_URL` set) whose backend
answers every HTTP call with `okPayload`. -/
def cwHttp : World :=
  { tableWorld (fun _ => .error "Unexpected token") with
      localApiBaseUrl := some "http://localhost:3000",
      fetchResp := fun _ _ => ⟨true, 200, .ok okPayload⟩ }

/-- A `tools/call` request for the registered txt2img tool. -/
def reqCallKnown : Json :=
  Json.obj [("jsonrpc", Json.str "2.0"), ("id", Json.num 10),
            ("method", Json.str "tools/call"),
            ("params", Json.obj
              [("name", Json.str "txt2img_stable_diffusion"),
               ("arguments", Json.obj [("prompt", Json.str "a cat")])])]

/-- Closed instances of every part of the C3 theorem. -/
theorem dispatch_follows_method_table_witness :
    (jsStringField (reqOf (Json.num 1) "initialize") "method" = "initialize" ∧
     (handleMcpRequest cwParse (reqOf (Json.num 1) "initialize") "us-east-1").1 =
       okResp (some (Json.num 1)) initializeResult) ∧
    (initializeResult.getField "protocolVersion" = some (Json.str "2025-06-18")) ∧
    (jsStringField (reqOf (Json.num 5) "ping") "method" = "ping" ∧
     (handleMcpRequest cwParse (reqOf (Json.num 5) "ping") "us-east-1").1 =
       okResp (some (Json.num 5)) (Json.obj [])) ∧
    (jsStringField (reqOf (Json.num 3) "resources/list") "method" = "resources/list" ∧
     (handleMcpRequest cwParse (reqOf (Json.num 3) "resources/list") "us-east-1").1 =
       okResp (some (Json.num 3)) (Json.obj [("resources", Json.arr [])])) ∧
    (jsStringField (reqOf (Json.num 4) "prompts/list") "method" = "prompts/list" ∧
     (handleMcpRequest cwParse (reqOf (Json.num 4) "prompts/list") "us-east-1").1 =
       okResp (some (Json.num 4)) (Json.obj [("prompts", Json.arr [])])) ∧
    (jsStringField (reqOf (Json.num 2) "tools/list") "method" = "tools/list" ∧
     (handleMcpRequest cwParse (reqOf (Json.num 2) "tools/list") "us-east-1").1 =
       okResp (some (Json.num 2)) toolsListResult) ∧
    (toolsCallNameOk reqCallKnown = true ∧
     (handleMcpRequest cwHttp reqCallKnown "us-east-1").1 =
       okResp (some (Json.num 10)) (formatToolResult okPayload)) ∧
    (acceptedMethod "foo/bar" = false ∧
     (handleMcpRequest cwParse (reqOf (Json.num 9) "foo/bar") "us-east-1").1 =
       errResp (some (Json.num 9)) (-32601) ("Method not found: " ++ "foo/bar")) := by
  obtain ⟨t1, tshape, t2, t3, t4, t5, t6, t7⟩ := dispatch_follows_method_table
  exact ⟨⟨rfl, t1 cwParse _ "us-east-1" rfl⟩, tshape.1,
         ⟨rfl, t2 cwParse _ "us-east-1" "ping" rfl (Or.inr (Or.inr rfl))⟩,
         ⟨rfl, t3 cwParse _ "us-east-1" rfl⟩,
         ⟨rfl, t4 cwParse _ "us-east-1" rfl⟩,
         ⟨rfl, t5 cwParse _ "us-east-1" rfl⟩,
         ⟨rfl, t6 cwHttp reqCallKnown "us-east-1" (formatToolResult okPayload)
            [Effect.httpCall "http://localhost:3000/tools/txt2img-stable-diffusion"
              (stringify (Json.obj [("prompt", Json.str "a cat")]))] rfl rfl rfl⟩,
         ⟨rfl, t7 cwParse _ "us-east-1" "foo/bar" rfl rfl⟩⟩

/-- Truthiness of the `LOCAL_API_BASE_URL` environment entry, which
selects the transport strategy. -/
def localTruthy (w : World) : Bool :=
  match w.localApiBaseUrl with
  | some b => b != ""
  | none => false

/-- C5: a `tools/call` on a tool present in the registry makes exactly
one outbound backend call, and it is the direct HTTP call exactly when
`LOCAL_API_BASE_URL` is set (truthy), the Lambda invocation otherwise —
never both. -/
theorem tools_call_exactly_one_outbound
    (w : World) (params : Json) (region : String) (s : String) (tool : McpToolConfig)
    (hname : params.getField "name" = some (Json.str s))
    (hfind : TOOL_REGISTRY.find? (fun t => t.name == s) = some tool) :
    ((handleToolsCall w params region).2.countP Effect.isOutbound = 1) ∧
    (∀ ef ∈ (handleToolsCall w params region).2, ef.isOutbound = true →
       (localTruthy w = true → ef.isHttp = true) ∧
       (localTruthy w = false → ef.isLambdaInvoke = true)) := by
  rcases hw : w.localApiBaseUrl with _ | base
  · simp [handleToolsCall, jsStringField, hname, hfind, hw, invokeToolViaLambda,
          Effect.isOutbound, Effect.isLambdaInvoke, localTruthy, List.countP, List.countP.go]
  · by_cases hb : base = "" <;>
      simp [handleToolsCall, jsStringField, hname, hfind, hw, hb, invokeToolViaLambda,
            invokeToolViaHttp, Effect.isOutbound, Effect.isLambdaInvoke, Effect.isHttp,
            localTruthy, List.countP, List.countP.go]

/-- Closed instance of the C5 theorem: local mode, known tool, one
outbound HTTP call. -/
theorem tools_call_exactly_one_outbound_witness :
    ((paramsOf reqCallKnown).getField "name" =
       some (Json.str "txt2img_stable_diffusion")) ∧
    ((handleToolsCall cwHttp (paramsOf reqCallKnown) "us-east-1").2.countP
       Effect.isOutbound = 1) ∧
    (∀ ef ∈ (handleToolsCall cwHttp (paramsOf reqCallKnown) "us-east-1").2,
       ef.isOutbound = true →
       (localTruthy cwHttp = true → ef.isHttp = true) ∧
       (localTruthy cwHttp = false → ef.isLambdaInvoke = true)) := by
  have h := tools_call_exactly_one_outbound cwHttp (paramsOf reqCallKnown) "us-east-1"
    "txt2img_stable_diffusion"
    { txt2imgStableDiffusion with
        lambdaFunction := "ToolTxt2imgStableDiffusionFunction",
        apiPath := "/tools/txt2img-stable-diffusion" } rfl rfl
  exact ⟨rfl, h.1, h.2⟩

/-- `l` is a prefix of itself. -/
theorem isPrefixOf_self_chars (l : List Char) : l.isPrefixOf l = true := by
  induction l with
  | nil => rfl
  | cons c cs ih => simp [List.isPrefixOf, ih]

/-- A suffix is found by the substring search. -/
theorem subListOf_append (pre sub : List Char) : subListOf sub (pre ++ sub) = true := by
  induction pre with
  | nil =>
    cases sub with
    | nil => rfl
    | cons c cs => simp [subListOf, isPrefixOf_self_chars]
  | cons c cs ih => simp [subListOf, ih]

/-- A string contains its own suffix. -/
theorem strContains_append (a s : String) : strContains (a ++ s) s = true := by
  simp [strContains, String.data_append, subListOf_append]

/-- C8: a `tools/call` whose `params.name` is a string not present in
the registry is answered with `error.code = -32602`, an error message
containing the requested name, and no `result`. -/
theorem unknown_tool_invalid_params
    (w : World) (req : Json) (region : String) (s : String)
    (hm : jsStringField req "method" = "tools/call")
    (hname : (req.getField "params").bind (fun p => p.getField "name") =
      some (Json.str s))
    (hfind : TOOL_REGISTRY.find? (fun t => t.name == s) = none) :
    ∃ msg, (handleMcpRequest w req region).1.error = some ⟨-32602, msg, none⟩ ∧
      strContains msg s = true ∧
      (handleMcpRequest w req region).1.result = none := by
  rcases hp : req.getField "params" with _ | p
  · rw [hp] at hname; simp at hname
  · rw [hp] at hname
    simp only [Option.some_bind] at hname
    by_cases hs : s = ""
    · subst hs
      refine ⟨"Missing or invalid tool name", ?_, by decide, ?_⟩ <;>
      · simp only [handleMcpRequest, hm]
        simp [toolsCallNameOk, hp, hname, errResp]
    · refine ⟨"Unknown tool: " ++ s, ?_, strContains_append _ s, ?_⟩ <;>
      · simp only [handleMcpRequest, hm]
        simp [toolsCallNameOk, hp, hname, hs, handleToolsCall, paramsOf,
              jsStringField, hfind]

/-- A `tools/call` request for a name not in the registry. -/
def reqCallUnknown : Json :=
  Json.obj [("jsonrpc", Json.str "2.0"), ("id", Json.num 11),
            ("method", Json.str "tools/call"),
            ("params", Json.obj [("name", Json.str "nope")])]

/-- Closed instance of the C8 theorem at the unknown name `nope`. -/
theorem unknown_tool_witness :
    (TOOL_REGISTRY.find? (fun t => t.name == "nope") = none) ∧
    (∃ msg, (handleMcpRequest cwParse reqCallUnknown "us-east-1").1.error =
        some ⟨-32602, msg, none⟩ ∧
      strContains msg "nope" = true ∧
      (handleMcpRequest cwParse reqCallUnknown "us-east-1").1.result = none) :=
  ⟨rfl, unknown_tool_invalid_params cwParse reqCallUnknown "us-east-1" "nope" rfl rfl rfl⟩

/-- C6 (amended): a backend payload whose `image` and `mime_type`
fields are both truthy shapes to a two-element content list — an
`image`-typed block followed by a `text`-typed block whose text is the
pretty-printed metadata object (exactly the present ones of
seed/finish_reason/model); a payload lacking both fields shapes to a
single `text` block holding the pretty-printed payload. -/
theorem format_tool_result_shape (payload : Json) :
    (truthyO (payload.getField "image") = true →
     truthyO (payload.getField "mime_type") = true →
     (contentOf (formatToolResult payload)).length = 2 ∧
     ((contentOf (formatToolResult payload)).head?.bind (fun b => b.getField "type") =
        some (Json.str "image")) ∧
     ((contentOf (formatToolResult payload))[1]?.bind (fun b => b.getField "type") =
        some (Json.str "text")) ∧
     ((contentOf (formatToolResult payload))[1]?.bind (fun b => b.getField "text") =
        some (Json.str (stringifyP "" (metaObj payload))))) ∧
    (payload.getField "image" = none → payload.getField "mime_type" = none →
     contentOf (formatToolResult payload) =
       [Json.obj [("type", Json.str "text"),
                  ("text", Json.str (stringifyP "" payload))]]) := by
  constructor
  · intro h1 h2
    simp only [formatToolResult, h1, h2]
    simp [contentOf, Json.getField, lookupField]
  · intro h1 h2
    simp only [formatToolResult, h1, h2]
    simp [truthyO, contentOf, Json.getField, lookupField]

/-- A payload with no image fields. -/
def plainPayload : Json := Json.obj [("answer", Json.num 42)]

/-- Closed instances of both parts of the C6 theorem. -/
theorem format_tool_result_shape_witness :
    (truthyO (okPayload.getField "image") = true ∧
     truthyO (okPayload.getField "mime_type") = true ∧
     (contentOf (formatToolResult okPayload)).length = 2 ∧
     ((contentOf (formatToolResult okPayload)).head?.bind (fun b => b.getField "type") =
        some (Json.str "image"))) ∧
    (plainPayload.getField "image" = none ∧
     plainPayload.getField "mime_type" = none ∧
     contentOf (formatToolResult plainPayload) =
       [Json.obj [("type", Json.str "text"),
                  ("text", Json.str (stringifyP "" plainPayload))]]) := by
  have h1 := format_tool_result_shape okPayload
  have h2 := format_tool_result_shape plainPayload
  exact ⟨⟨rfl, rfl, (h1.1 rfl rfl).1, (h1.1 rfl rfl).2.1⟩, rfl, rfl, h2.2 rfl rfl⟩

/-- A payload that contains both an `image` field and a `mime_type`
field, but with a falsy (empty-string) image. -/
def falsyImagePayload : Json :=
  Json.obj [("image", Json.str ""), ("mime_type", Json.str "image/png")]

/-- C6 counterexample: the payload `{image: "", mime_type: "image/png"}`
contains both fields, yet the shaped result is a single text block —
not a content list of length ≥ 2 with an image block first, as the
claim (which conditions on field presence alone) states. -/
theorem format_tool_result_counterexample :
    falsyImagePayload.getField "image" = some (Json.str "") ∧
    falsyImagePayload.getField "mime_type" = some (Json.str "image/png") ∧
    (contentOf (formatToolResult falsyImagePayload)).length = 1 ∧
    ¬(2 ≤ (contentOf (formatToolResult falsyImagePayload)).length) ∧
    ((contentOf (formatToolResult falsyImagePayload)).head?.bind
       (fun b => b.getField "type") = some (Json.str "text")) := by
  refine ⟨rfl, rfl, rfl, ?_, rfl⟩
  rw [show (contentOf (formatToolResult falsyImagePayload)).length = 1 from rfl]
  decide

/-- C7 (amended): a `tools/call` through the Lambda strategy resolves
the callable identifier via the config resolver with the descriptor's
static `lambdaFunction` as fallback, invokes with the synthetic
API-Gateway payload `{httpMethod: "POST", body: JSON(arguments),
headers, pathParameters: null, queryStringParameters: null,
requestContext: {}}`, and when the decoded response payload has
`statusCode >= 400` it raises `-32603` with the decoded body's `error`
field when that field is truthy, else the generic fallback. -/
theorem lambda_invocation_contract
    (w : World) (tool : McpToolConfig) (args : Json) (region : String) :
    ((toolEventJson args).getField "httpMethod" = some (Json.str "POST") ∧
     (toolEventJson args).getField "body" = some (Json.str (stringify args)) ∧
     (toolEventJson args).getField "pathParameters" = some Json.null ∧
     (toolEventJson args).getField "queryStringParameters" = some Json.null ∧
     (toolEventJson args).getField "requestContext" = some (Json.obj [])) ∧
    ((invokeToolViaLambda w tool args region).2 =
      [Effect.configLookup ("LAMBDA_" ++ tool.lambdaFunction.toUpper)
         ("/image-workshop/lambda/" ++ tool.lambdaFunction) tool.lambdaFunction,
       Effect.lambdaInvoke
         (w.getValue ("LAMBDA_" ++ tool.lambdaFunction.toUpper)
            ("/image-workshop/lambda/" ++ tool.lambdaFunction) tool.lambdaFunction)
         (stringify (toolEventJson args))]) ∧
    (∀ p lr b tr,
       w.lambdaResp
         (w.getValue ("LAMBDA_" ++ tool.lambdaFunction.toUpper)
            ("/image-workshop/lambda/" ++ tool.lambdaFunction) tool.lambdaFunction)
         (stringify (toolEventJson args)) = ⟨none, some p⟩ →
       w.parse p = .ok lr → lr.isNull = false →
       lr.getField "body" = some (Json.str b) → b ≠ "" →
       w.parse b = .ok tr →
       statusCodeGe400 lr = true → tr.isNull = false →
       (invokeToolViaLambda w tool args region).1 =
         .error (.mcp (-32603) (toolErrMsgOf tr))) := by
  refine ⟨⟨rfl, rfl, rfl, rfl, rfl⟩, rfl, ?_⟩
  intro p lr b tr h1 h2 h3 h4 h5 h6 h7 h8
  simp [invokeToolViaLambda, h1, h2, h3, h4, h5, h6, h7, h8, jsJsonParse, jsToString,
        Json.truthy]

/-- The registered txt2img tool descriptor. -/
def txt2imgTool : McpToolConfig :=
  { txt2imgStableDiffusion with
      lambdaFunction := "ToolTxt2imgStableDiffusionFunction",
      apiPath := "/tools/txt2img-stable-diffusion" }

/-- A decoded Lambda response with `statusCode: 400` and a JSON body. -/
def lrBoom : Json := Json.obj [("statusCode", Json.num 400), ("body", Json.str "B400")]

/-- An error body whose `error` field is the non-empty string `boom`. -/
def trBoom : Json := Json.obj [("error", Json.str "boom")]

/-- A world whose Lambda channel answers with a 400-status payload
whose body's `error` field is `boom`. -/
def cw7 : World :=
  { tableWorld (fun s =>
      if s = "P400" then .ok lrBoom
      else if s = "B400" then .ok trBoom
      else .error "Unexpected token") with
    lambdaResp := fun _ _ => ⟨none, some "P400"⟩ }

/-- Closed instance of the C7 theorem: the `boom` error text is used as
the raised message. -/
theorem lambda_invocation_contract_witness :
    (cw7.lambdaResp
       (cw7.getValue ("LAMBDA_" ++ txt2imgTool.lambdaFunction.toUpper)
          ("/image-workshop/lambda/" ++ txt2imgTool.lambdaFunction)
          txt2imgTool.lambdaFunction)
       (stringify (toolEventJson (Json.obj []))) = ⟨none, some "P400"⟩) ∧
    (statusCodeGe400 lrBoom = true) ∧
    ((invokeToolViaLambda cw7 txt2imgTool (Json.obj []) "us-east-1").1 =
      .error (.mcp (-32603) "boom")) := by
  have h := (lambda_invocation_contract cw7 txt2imgTool (Json.obj []) "us-east-1").2.2
  exact ⟨rfl, rfl,
    h "P400" lrBoom "B400" trBoom rfl rfl rfl rfl (by decide) rfl rfl rfl⟩

/-- An error body whose `error` field is present but the empty string. -/
def trEmptyErr : Json := Json.obj [("error", Json.str "")]

/-- A decoded Lambda response with `statusCode: 400` pointing at the
empty-error body. -/
def lrEmptyErr : Json := Json.obj [("statusCode", Json.num 400), ("body", Json.str "BE")]

/-- A world whose Lambda channel answers with a 400-status payload
whose body's `error` field is the empty string. -/
def cw7e : World :=
  { tableWorld (fun s =>
      if s = "PE" then .ok lrEmptyErr
      else if s = "BE" then .ok trEmptyErr
      else .error "Unexpected token") with
    lambdaResp := fun _ _ => ⟨none, some "PE"⟩ }

/-- C7 counterexample: with `statusCode: 400` and the `error` field
PRESENT but empty, the raised message is the generic fallback
`Tool execution failed`, not the error field's value — the claim's
"error field when present" does not hold; truthiness decides. -/
theorem lambda_error_field_counterexample :
    (trEmptyErr.getField "error" = some (Json.str "")) ∧
    ((invokeToolViaLambda cw7e txt2imgTool (Json.obj []) "us-east-1").1 =
      .error (.mcp (-32603) "Tool execution failed")) ∧
    (("Tool execution failed" : String) ≠ "") := by
  exact ⟨rfl, rfl, by decide⟩

/-- A `tools/list` dispatch always carries the registry listing. -/
theorem res_tools_list (w : World) (req : Json) (region : String)
    (h : jsStringField req "method" = "tools/list") :
    (handleMcpRequest w req region).1.result = some toolsListResult := by
  simp [handleMcpRequest, h, okResp]

/-- An `initialize` dispatch always carries the fixed initialize result. -/
theorem res_initialize (w : World) (req : Json) (region : String)
    (h : jsStringField req "method" = "initialize") :
    (handleMcpRequest w req region).1.result = some initializeResult := by
  simp [handleMcpRequest, h, okResp]

/-- The serialized bytes of one dispatch's `result` payload. -/
def resultBytes (w : World) (region : String) (req : Json) : Option String :=
  ((handleMcpRequest w req region).1.result).map stringify

/-- C9: repeating `tools/list` or `initialize` any number of times (any
list of requests with that method, e.g. with different ids) yields
byte-identical serialized `result` payloads on every invocation. -/
theorem tools_list_initialize_idempotent
    (w : World) (region : String) (reqs : List Json) (m : String)
    (hm : m = "tools/list" ∨ m = "initialize")
    (hall : ∀ r ∈ reqs, jsStringField r "method" = m) :
    ∀ x ∈ reqs.map (resultBytes w region), ∀ y ∈ reqs.map (resultBytes w region),
      x = y := by
  intro x hx y hy
  simp only [List.mem_map] at hx hy
  obtain ⟨r1, hr1, rfl⟩ := hx
  obtain ⟨r2, hr2, rfl⟩ := hy
  rcases hm with hm | hm <;> subst hm
  · rw [resultBytes, resultBytes, res_tools_list w r1 region (hall r1 hr1),
        res_tools_list w r2 region (hall r2 hr2)]
  · rw [resultBytes, resultBytes, res_initialize w r1 region (hall r1 hr1),
        res_initialize w r2 region (hall r2 hr2)]

/-- Closed instance of the C9 theorem: three `tools/list` requests with
different ids produce pairwise equal serialized results. -/
theorem tools_list_initialize_idempotent_witness :
    (∀ r ∈ [reqOf (Json.num 1) "tools/list", reqOf (Json.num 2) "tools/list",
            reqOf Json.null "tools/list"], jsStringField r "method" = "tools/list") ∧
    (∀ x ∈ [reqOf (Json.num 1) "tools/list", reqOf (Json.num 2) "tools/list",
            reqOf Json.null "tools/list"].map (resultBytes cwParse "us-east-1"),
     ∀ y ∈ [reqOf (Json.num 1) "tools/list", reqOf (Json.num 2) "tools/list",
            reqOf Json.null "tools/list"].map (resultBytes cwParse "us-east-1"),
       x = y) := by
  have hall : ∀ r ∈ [reqOf (Json.num 1) "tools/list", reqOf (Json.num 2) "tools/list",
      reqOf Json.null "tools/list"], jsStringField r "method" = "tools/list" := by
    intro r hr
    fin_cases hr <;> rfl
  exact ⟨hall,
    tools_list_initialize_idempotent cwParse "us-east-1" _ "tools/list" (Or.inl rfl) hall⟩
